import Mathlib

/-!
Shallow embedding of the `cmake-skill/examples` sources:
the `example` library (`example_lib.cpp`), the consumer executable
(`consumer/main.cpp`) and the FetchContent executable
(`fetchcontent/main.cpp`), together with theorems settling the
specification's claims about them.

C++ `int` is modelled as `Int` restricted to the signed 32-bit range;
the machine addition in `example::add` is modelled with two's-complement
wrap-around of the 32-bit result.
-/

/-- Predicate stating that an integer lies in the range of a 32-bit C++
`int`: -2^31 ≤ x < 2^31. -/
def IntRange (x : Int) : Prop := -2147483648 ≤ x ∧ x < 2147483648

instance (x : Int) : Decidable (IntRange x) := by
  unfold IntRange; infer_instance

/-- Two's-complement reduction of an integer to the 32-bit signed range,
modelling what the machine addition in `example::add` produces when the
mathematical result leaves the `int` range. -/
def wrap32 (x : Int) : Int := (x + 2147483648) % 4294967296 - 2147483648

/-- Embedding of `example::get_version` from `example_lib.cpp`: returns the
string literal "1.0.0". -/
def Example.get_version : String := "1.0.0"

/-- Embedding of `example::add` from `example_lib.cpp`: `return a + b;` on
C++ `int` operands, the 32-bit machine addition modelled as two's-complement
wrap-around of the mathematical sum. -/
def Example.add (a b : Int) : Int := wrap32 (a + b)

/-- Embedding of the consumer executable's `main` (`consumer/main.cpp`):
its observable behaviour is the list of lines written to standard output
and its exit status. It prints the library version line, then the line for
`example::add(5, 7)`, and returns 0. -/
def consumerMain : List String × Int :=
  (["ExampleLib version: " ++ Example.get_version,
    "5 + 7 = " ++ toString (Example.add 5 7)], 0)

/-- JSON values as built by the FetchContent example: null, strings,
arrays and objects (an object is a key-ordered association list, mirroring
the ordered map used by the JSON library). -/
inductive Json where
  | null : Json
  | str : String → Json
  | arr : List Json → Json
  | obj : List (String × Json) → Json

/-- Lexicographic comparison of character lists by code point, the order
used by the ordered map of string keys backing a JSON object. -/
def strLtAux : List Char → List Char → Bool
  | [], [] => false
  | [], _ :: _ => true
  | _ :: _, [] => false
  | c :: cs, d :: ds =>
    if c.toNat < d.toNat then true
    else if d.toNat < c.toNat then false
    else strLtAux cs ds

/-- Lexicographic strict order on strings by code point. -/
def strLt (a b : String) : Bool := strLtAux a.data b.data

/-- Insertion into the key-sorted association list backing a JSON object,
mirroring ordered-map insertion: an existing key is overwritten, a new key
is placed at its sorted position. -/
def insertKey : List (String × Json) → String → Json → List (String × Json)
  | [], k, v => [(k, v)]
  | (k', v') :: rest, k, v =>
    if strLt k k' then (k, v) :: (k', v') :: rest
    else if k = k' then (k, v) :: rest
    else (k', v') :: insertKey rest k v

/-- Embedding of `j[key] = value` on a JSON value: a null value is first
converted to an empty object, as the JSON library does. -/
def Json.setKey : Json → String → Json → Json
  | .obj kvs, k, v => .obj (insertKey kvs k v)
  | _, k, v => .obj (insertKey [] k v)

/-- Keys of a JSON object, in stored (sorted) order. -/
def Json.keys : Json → List String
  | .obj kvs => kvs.map Prod.fst
  | _ => []

/-- Lookup of a key in the association list backing a JSON object. -/
def lookupKey : List (String × Json) → String → Option Json
  | [], _ => none
  | (k', v') :: rest, k => if k = k' then some v' else lookupKey rest k

/-- Field access `j[key]` on a JSON object, as an `Option`. -/
def Json.get : Json → String → Option Json
  | .obj kvs, k => lookupKey kvs k
  | _, _ => none

/-- Fixed-point decimal formatting with two fractional digits of the
nonnegative rational num/den, modelling the `.2f` formatting applied to
the literal 3.14159 in `fetchcontent/main.cpp` (the nearest double to
3.14159 is far from the 3.145 rounding boundary, so exact rational
rounding agrees with the formatted double). -/
def formatFixed2 (num den : Nat) : String :=
  let n : Nat := (num * 200 + den) / (den * 2)
  let ip : Nat := n / 100
  let fp : Nat := n % 100
  toString ip ++ "." ++ (if fp < 10 then "0" ++ toString fp else toString fp)

/-- Embedding of the JSON object built in `fetchcontent/main.cpp`: the
default-constructed (null) value receives the fields name, version and
dependencies in that assignment order. -/
def fetchJson : Json :=
  ((Json.null.setKey "name" (Json.str "FetchContent Example")).setKey
      "version" (Json.str "1.0.0")).setKey
    "dependencies" (Json.arr [Json.str "fmt", Json.str "nlohmann_json"])

/-- Embedding of the FetchContent executable's `main`
(`fetchcontent/main.cpp`): the lines printed before the JSON dump, the
JSON value it serializes, and the exit status. -/
def fetchMain : List String × Json × Int :=
  (["Hello from fmt library!",
    "Formatted number: " ++ formatFixed2 314159 100000,
    "",
    "JSON output:"],
   fetchJson, 0)

/-- The two's-complement reduction always lands in the 32-bit range. -/
theorem wrap32_range (x : Int) : IntRange (wrap32 x) := by
  unfold wrap32 IntRange
  omega

/-- C1 (counterexample): at a = 2147483647 (INT_MAX) and b = 1, both valid
`int` inputs, `example::add` does not return the arithmetic sum a + b:
the 32-bit machine addition wraps to -2147483648. -/
theorem c1_add_sum_counterexample :
    IntRange 2147483647 ∧ IntRange 1 ∧
      Example.add 2147483647 1 ≠ 2147483647 + 1 := by
  decide

/-- C1 (amended): for every pair of `int` inputs a and b whose arithmetic
sum still lies in the 32-bit `int` range, `example::add(a, b)` returns the
arithmetic sum a + b. -/
theorem c1_add_sum (a b : Int) (ha : IntRange a) (hb : IntRange b)
    (hs : IntRange (a + b)) : Example.add a b = a + b := by
  unfold Example.add wrap32
  unfold IntRange at ha hb hs
  omega

/-- Witness for C1 at a = 5, b = 7. -/
theorem c1_add_sum_witness :
    IntRange 5 ∧ IntRange 7 ∧ IntRange (5 + 7) ∧ Example.add 5 7 = 5 + 7 :=
  ⟨by decide, by decide, by decide,
    c1_add_sum 5 7 (by decide) (by decide) (by decide)⟩

/-- C2: `example::get_version()` returns exactly the string "1.0.0". -/
theorem c2_get_version : Example.get_version = "1.0.0" := rfl

/-- C3: `example::add(5, 7)` returns exactly 12. -/
theorem c3_add_5_7 : Example.add 5 7 = 12 := by decide

/-- C4: formatting the fixed input 3.14159 with two decimal places yields
the text "3.14", and the FetchContent entry point prints exactly that
formatted line. -/
theorem c4_format_3_14 :
    formatFixed2 314159 100000 = "3.14" ∧
      "Formatted number: 3.14" ∈ fetchMain.1 := by
  decide

/-- C5: the JSON structure emitted by the FetchContent entry point has
exactly the fields name, version and dependencies, and its dependencies
field holds exactly the entries "fmt" and "nlohmann_json" in that order. -/
theorem c5_json_fields :
    fetchMain.2.1.keys.Perm ["name", "version", "dependencies"] ∧
      fetchMain.2.1.get "dependencies" =
        some (Json.arr [Json.str "fmt", Json.str "nlohmann_json"]) := by
  constructor
  · decide
  · rfl

/-- C6: the consumer entry point's observable behaviour is exactly two
lines of console output, the library version string followed by the sum of
the literals 5 and 7 (and the exit status of C9); nothing else is
produced. -/
theorem c6_consumer_output :
    consumerMain.1 = ["ExampleLib version: 1.0.0", "5 + 7 = 12"] := by
  decide

/-- C7: both library operations are total: `example::add` produces a
result in the `int` range for all inputs, and `example::get_version`
produces a result, with no error path in either. -/
theorem c7_total :
    (∀ a b : Int, ∃ r : Int, Example.add a b = r ∧ IntRange r) ∧
      ∃ s : String, Example.get_version = s :=
  ⟨fun a b => ⟨Example.add a b, rfl, wrap32_range (a + b)⟩, ⟨"1.0.0", rfl⟩⟩

/-- C8: `example::add` and `example::get_version` are deterministic: two
invocations with equal arguments return equal results (they are pure
functions of their arguments, touching no outside state). -/
theorem c8_deterministic :
    ∀ a b a' b' : Int, a = a' → b = b' →
      Example.add a b = Example.add a' b' ∧
        Example.get_version = Example.get_version := by
  intro a b a' b' h1 h2
  rw [h1, h2]
  exact ⟨rfl, rfl⟩

/-- Witness for C8 at a = 1, b = 2. -/
theorem c8_deterministic_witness :
    Example.add 1 2 = Example.add 1 2 ∧
      Example.get_version = Example.get_version :=
  c8_deterministic 1 2 1 2 rfl rfl

/-- C9: both entry points return exit status 0 on every run. -/
theorem c9_exit_codes : consumerMain.2 = 0 ∧ fetchMain.2.2 = 0 :=
  ⟨rfl, rfl⟩

/-- C10: `example::add` is commutative, and 0 is an identity for every
input in the `int` range. -/
theorem c10_comm_identity :
    (∀ a b : Int, Example.add a b = Example.add b a) ∧
      ∀ a : Int, IntRange a → Example.add a 0 = a := by
  constructor
  · intro a b
    unfold Example.add
    rw [Int.add_comm]
  · intro a ha
    unfold Example.add wrap32
    unfold IntRange at ha
    omega

/-- Witness for C10 at a = 3, b = 4 and a = 5. -/
theorem c10_comm_identity_witness :
    Example.add 3 4 = Example.add 4 3 ∧ Example.add 5 0 = 5 :=
  ⟨c10_comm_identity.1 3 4, c10_comm_identity.2 5 (by decide)⟩
